import Mathlib

/-!
Shallow embedding of `src/USB_Tester_v2/USB_Tester_Beta_FW2.3/INA219.cpp`,
the INA219 current/voltage sensor driver of the FC-USB-Tester OLED backpack.

The I2C bus (`Wire`) is modelled by an explicit mock state: a register store
keyed by register id that records the two data bytes of the most recent write,
plus a chronological trace of all issued writes and an `enabled` flag set by
`Wire.begin()`.  C `uint16_t` values are natural numbers reduced `% 2 ^ 16`
where the source stores into a `uint16_t`; the C cast `(int16_t)` is the
explicit wrap `int16wrap`.  The `float` arithmetic of `getCurrent_mA` is
modelled as exact rational arithmetic (the quantities involved keep the
single-precision rounding error far below every truncation boundary), and the
C cast from `float` to `int16_t`, which truncates toward zero, is `ratTrunc`
followed by `int16wrap`.
-/

/-- Modelled from the spec: the register ids come from the header `INA219.h`,
which is not part of `src/`; the values are the INA219 register map named by
the spec (configuration, shunt voltage, bus voltage, power, current,
calibration, at fixed byte offsets). -/
def INA219_REG_CONFIG : Nat := 0x00

/-- Modelled from the spec: shunt-voltage register id (header missing). -/
def INA219_REG_SHUNTVOLTAGE : Nat := 0x01

/-- Modelled from the spec: bus-voltage register id (header missing). -/
def INA219_REG_BUSVOLTAGE : Nat := 0x02

/-- Modelled from the spec: power register id (header missing). -/
def INA219_REG_POWER : Nat := 0x03

/-- Modelled from the spec: current register id (header missing). -/
def INA219_REG_CURRENT : Nat := 0x04

/-- Modelled from the spec: calibration register id (header missing). -/
def INA219_REG_CALIBRATION : Nat := 0x05

/-- Modelled from the spec: configuration bit-field constant for the 32 V bus
voltage range (header `INA219.h` missing from `src/`; datasheet encoding of
the field named by the spec). -/
def INA219_CONFIG_BVOLTAGERANGE_32V : Nat := 0x2000

/-- Modelled from the spec: configuration bit-field constant for the 16 V bus
voltage range (header missing). -/
def INA219_CONFIG_BVOLTAGERANGE_16V : Nat := 0x0000

/-- Modelled from the spec: gain 8, ±320 mV shunt range (header missing). -/
def INA219_CONFIG_GAIN_8_320MV : Nat := 0x1800

/-- Modelled from the spec: gain 1, ±40 mV shunt range (header missing). -/
def INA219_CONFIG_GAIN_1_40MV : Nat := 0x0000

/-- Modelled from the spec: 12-bit bus ADC resolution (header missing). -/
def INA219_CONFIG_BADCRES_12BIT : Nat := 0x0180

/-- Modelled from the spec: 12-bit shunt ADC, 1 sample, 532 µs conversion
(header missing). -/
def INA219_CONFIG_SADCRES_12BIT_1S_532US : Nat := 0x0018

/-- Modelled from the spec: continuous shunt-and-bus sampling mode (header
missing). -/
def INA219_CONFIG_MODE_SANDBVOLT_CONTINUOUS : Nat := 0x0007

/-- Mock state of the two-wire bus together with the device's register file:
`regs r` holds the two data bytes (msb, lsb) most recently written to register
`r`, `writes` is the chronological trace of issued writes as
(i2c address, register id, upper byte, lower byte), and `enabled` records
whether `Wire.begin()` has run. -/
structure WireState where
  enabled : Bool
  regs : Nat → Nat × Nat
  writes : List (Nat × Nat × Nat × Nat)

/-- A bus whose registers all read as zero, before any transaction. -/
def initialWire : WireState :=
  { enabled := false, regs := fun _ => (0, 0), writes := [] }

/-- Embedding of `INA219::wireWriteRegister` (INA219.cpp lines 17-30): one
transaction sending the register id, then `(value >> 8) & 0xFF`, then
`value & 0xFF`.  The mock store records the two transmitted data bytes. -/
def wireWriteRegister (w : WireState) (addr reg value : Nat) : WireState :=
  { w with
    regs := fun r =>
      if r = reg then ((value >>> 8) &&& 0xFF, value &&& 0xFF) else w.regs r
    writes := w.writes ++ [(addr, reg, (value >>> 8) &&& 0xFF, value &&& 0xFF)] }

/-- Embedding of `INA219::wireReadRegister` (INA219.cpp lines 37-56): request
two bytes and assemble `(first << 8) + second` into a `uint16_t` (hence the
reduction `% 2 ^ 16` of the store into the 16-bit variable). -/
def wireReadRegister (w : WireState) (reg : Nat) : Nat :=
  (((w.regs reg).1 <<< 8) + (w.regs reg).2) % 65536

/-- The write trace with the two data bytes of each entry reassembled
big-endian, as (i2c address, register id, 16-bit value). -/
def writtenValues (w : WireState) : List (Nat × Nat × Nat) :=
  w.writes.map fun e => (e.1, e.2.1, (e.2.2.1 <<< 8) + e.2.2.2)

/-- The C cast `(int16_t)` on a value reduced modulo `2 ^ 16`: wrap into
`[-32768, 32767]`. -/
def int16wrap (n : Int) : Int :=
  (n + 32768) % 65536 - 32768

/-- The C cast from `float` to a signed integer type truncates toward zero;
on exact rationals that is floor for nonnegative and ceiling for negative
arguments. -/
def ratTrunc (q : ℚ) : Int :=
  if 0 ≤ q then ⌊q⌋ else ⌈q⌉

/-- Driver state: embedding of the member variables of class `INA219`
(declared in the missing header, assigned in INA219.cpp). -/
structure INA219 where
  ina219_i2caddr : Nat
  ina219_currentDivider_mA : Nat
  ina219_powerDivider_mW : Nat

/-- Embedding of the constructor `INA219::INA219` (INA219.cpp lines 260-264):
store the address and zero both divisors. -/
def mkINA219 (addr : Nat) : INA219 :=
  { ina219_i2caddr := addr
    ina219_currentDivider_mA := 0
    ina219_powerDivider_mW := 0 }

/-- Embedding of `INA219::ina219SetCalibration_32V_2A` (INA219.cpp lines
68-145): set divisors 10 and 2, write 0x1000 to the calibration register, then
write the bitwise-OR'd configuration word to the configuration register. -/
def ina219SetCalibration_32V_2A (dev : INA219) (w : WireState) :
    INA219 × WireState :=
  let dev := { dev with ina219_currentDivider_mA := 10, ina219_powerDivider_mW := 2 }
  let w := wireWriteRegister w dev.ina219_i2caddr INA219_REG_CALIBRATION 0x1000
  let config := INA219_CONFIG_BVOLTAGERANGE_32V |||
                INA219_CONFIG_GAIN_8_320MV |||
                INA219_CONFIG_BADCRES_12BIT |||
                INA219_CONFIG_SADCRES_12BIT_1S_532US |||
                INA219_CONFIG_MODE_SANDBVOLT_CONTINUOUS
  let w := wireWriteRegister w dev.ina219_i2caddr INA219_REG_CONFIG config
  (dev, w)

/-- Embedding of `INA219::ina219SetCalibration_32V_1A` (INA219.cpp lines
157-236): set divisors 25 and 1, write 0x2800 to the calibration register,
then write the bitwise-OR'd configuration word. -/
def ina219SetCalibration_32V_1A (dev : INA219) (w : WireState) :
    INA219 × WireState :=
  let dev := { dev with ina219_currentDivider_mA := 25, ina219_powerDivider_mW := 1 }
  let w := wireWriteRegister w dev.ina219_i2caddr INA219_REG_CALIBRATION 0x2800
  let config := INA219_CONFIG_BVOLTAGERANGE_32V |||
                INA219_CONFIG_GAIN_8_320MV |||
                INA219_CONFIG_BADCRES_12BIT |||
                INA219_CONFIG_SADCRES_12BIT_1S_532US |||
                INA219_CONFIG_MODE_SANDBVOLT_CONTINUOUS
  let w := wireWriteRegister w dev.ina219_i2caddr INA219_REG_CONFIG config
  (dev, w)

/-- Embedding of `INA219::ina219SetCalibration_16V_400mA` (INA219.cpp lines
238-253): set divisors 20 and 1, write 8192 to the calibration register, then
write the bitwise-OR'd configuration word for the 16 V / gain-1 range. -/
def ina219SetCalibration_16V_400mA (dev : INA219) (w : WireState) :
    INA219 × WireState :=
  let dev := { dev with ina219_currentDivider_mA := 20, ina219_powerDivider_mW := 1 }
  let w := wireWriteRegister w dev.ina219_i2caddr INA219_REG_CALIBRATION 8192
  let config := INA219_CONFIG_BVOLTAGERANGE_16V |||
                INA219_CONFIG_GAIN_1_40MV |||
                INA219_CONFIG_BADCRES_12BIT |||
                INA219_CONFIG_SADCRES_12BIT_1S_532US |||
                INA219_CONFIG_MODE_SANDBVOLT_CONTINUOUS
  let w := wireWriteRegister w dev.ina219_i2caddr INA219_REG_CONFIG config
  (dev, w)

/-- Embedding of `INA219::begin` (INA219.cpp lines 271-276): `Wire.begin()`
(modelled as setting the `enabled` flag), then the 32V/2A calibration. -/
def begin (dev : INA219) (w : WireState) : INA219 × WireState :=
  ina219SetCalibration_32V_2A dev { w with enabled := true }

/-- Embedding of `INA219::getBusVoltage_raw` (INA219.cpp lines 283-289):
read the bus-voltage register, shift right 3 to drop the CNVR and OVF flags,
multiply by 4, cast to `int16_t`. -/
def getBusVoltage_raw (w : WireState) : Int :=
  let value := wireReadRegister w INA219_REG_BUSVOLTAGE
  int16wrap (((value >>> 3) * 4 : Nat) : Int)

/-- Embedding of `INA219::getShuntVoltage_raw` (INA219.cpp lines 296-300). -/
def getShuntVoltage_raw (w : WireState) : Int :=
  let value := wireReadRegister w INA219_REG_SHUNTVOLTAGE
  int16wrap value

/-- Embedding of `INA219::getCurrent_raw` (INA219.cpp lines 307-311). -/
def getCurrent_raw (w : WireState) : Int :=
  let value := wireReadRegister w INA219_REG_CURRENT
  int16wrap value

/-- Embedding of `INA219::getShuntVoltage_mV` (INA219.cpp lines 318-326):
read the shunt-voltage register into a `uint16_t`; if the unsigned value is
at least 650, zero it; cast to `int16_t`. -/
def getShuntVoltage_mV (w : WireState) : Int :=
  let value := wireReadRegister w INA219_REG_SHUNTVOLTAGE
  let value := if 650 ≤ value then 0 else value
  int16wrap value

/-- Embedding of `INA219::getBusVoltage_V` (INA219.cpp lines 333-342):
read the bus-voltage register, shift right 3, shift left 2, cast to
`int16_t`. -/
def getBusVoltage_V (w : WireState) : Int :=
  let value := wireReadRegister w INA219_REG_BUSVOLTAGE
  int16wrap (((value >>> 3) <<< 2 : Nat) : Int)

/-- Embedding of `INA219::getCurrent_mA` (INA219.cpp lines 350-362): read the
current register, reinterpret as `int16_t`, divide by
`ina219_currentDivider_mA` in `float` (modelled as exact rational
arithmetic), add 0.5, cast back to `int16_t` (truncation toward zero).
A zero divisor sends the float value to infinity and makes the cast
undefined, modelled as `none`. -/
def getCurrent_mA (dev : INA219) (w : WireState) : Option Int :=
  let value := wireReadRegister w INA219_REG_CURRENT
  if dev.ina219_currentDivider_mA = 0 then none
  else
    let valueDec : ℚ := (int16wrap value : ℚ)
    let valueDec := valueDec / (dev.ina219_currentDivider_mA : ℚ)
    some (int16wrap (ratTrunc (valueDec + 1/2)))

/-- Mock bus whose register `reg` holds the two data bytes (hi, lo) and every
other register reads zero. -/
def mockWire (reg hi lo : Nat) : WireState :=
  { enabled := false
    regs := fun r => if r = reg then (hi, lo) else (0, 0)
    writes := [] }

lemma wireReadRegister_lt (w : WireState) (reg : Nat) :
    wireReadRegister w reg < 65536 :=
  Nat.mod_lt _ (by norm_num)

lemma int16wrap_bounds (n : Int) :
    -32768 ≤ int16wrap n ∧ int16wrap n ≤ 32767 := by
  unfold int16wrap
  omega

lemma int16wrap_eq_self {n : Int} (h1 : -32768 ≤ n) (h2 : n ≤ 32767) :
    int16wrap n = n := by
  unfold int16wrap
  omega

lemma int16wrap_natCast {v : Nat} (h : v ≤ 32767) :
    int16wrap (v : Int) = (v : Int) :=
  int16wrap_eq_self (by omega) (by omega)

lemma ratTrunc_bounds {q : ℚ} {B : Int} (h1 : -(B : ℚ) ≤ q) (h2 : q ≤ (B : ℚ)) :
    -B ≤ ratTrunc q ∧ ratTrunc q ≤ B := by
  have hB : (0 : Int) ≤ B := by
    by_contra hc
    push_neg at hc
    have : (B : ℚ) < 0 := by exact_mod_cast hc
    linarith
  unfold ratTrunc
  split
  · rename_i h0
    refine ⟨le_trans (by omega) (Int.floor_nonneg.mpr h0), ?_⟩
    calc ⌊q⌋ ≤ ⌊(B : ℚ)⌋ := Int.floor_mono h2
    _ = B := Int.floor_intCast B
  · rename_i h0
    push_neg at h0
    constructor
    · calc -B = ⌈((-B : Int) : ℚ)⌉ := by rw [Int.ceil_intCast]
      _ ≤ ⌈q⌉ := Int.ceil_mono (by push_cast; linarith)
    · calc ⌈q⌉ ≤ ⌈(0 : ℚ)⌉ := Int.ceil_mono (le_of_lt h0)
      _ = 0 := by norm_num
      _ ≤ B := hB

/-- Scenario bus of testable property 6 of the spec: the bus-voltage register
reads back the raw value 0x1F28 (bytes 0x1F, 0x28). -/
def wBus1F28 : WireState :=
  mockWire INA219_REG_BUSVOLTAGE 0x1F 0x28

/-- Claim C2 counterexample: in the spec's own scenario (driver at address
0x40, `begin` applied, bus-voltage register raw value 0x1F28) the driver does
not return 16160: `(0x1F28 >> 3) * 4` is 3988, not 16160. -/
theorem busVoltage_scenario_not_16160 :
    getBusVoltage_raw (begin (mkINA219 0x40) wBus1F28).2 ≠ 16160 := by
  decide

/-- Claim C2 (amended): with a driver constructed at address 0x40, `begin`
applied (32V/2A preset) and the bus-voltage register reading raw 0x1F28,
`getBusVoltage_raw` returns `(0x1F28 >> 3) * 4 = 3988`. -/
theorem busVoltage_scenario_3988 :
    (mkINA219 0x40).ina219_i2caddr = 0x40 ∧
    (begin (mkINA219 0x40) wBus1F28).1.ina219_currentDivider_mA = 10 ∧
    wireReadRegister (begin (mkINA219 0x40) wBus1F28).2 INA219_REG_BUSVOLTAGE = 0x1F28 ∧
    getBusVoltage_raw (begin (mkINA219 0x40) wBus1F28).2 = 3988 ∧
    ((0x1F28 >>> 3) * 4 : Nat) = 3988 := by
  refine ⟨rfl, rfl, by decide, by decide, by decide⟩

/-- Claim C3: for every 16-bit raw bus-voltage register value,
`getBusVoltage_raw` and `getBusVoltage_V` return bit-for-bit identical
results, and both equal `(v >> 3) * 4`. -/
theorem busVoltage_raw_eq_V (w : WireState) :
    getBusVoltage_raw w = getBusVoltage_V w ∧
    getBusVoltage_raw w =
      (((wireReadRegister w INA219_REG_BUSVOLTAGE) >>> 3) * 4 : Nat) := by
  have hlt : wireReadRegister w INA219_REG_BUSVOLTAGE < 65536 :=
    wireReadRegister_lt w INA219_REG_BUSVOLTAGE
  have hsh : (wireReadRegister w INA219_REG_BUSVOLTAGE >>> 3) <<< 2 =
      (wireReadRegister w INA219_REG_BUSVOLTAGE >>> 3) * 4 := by
    rw [Nat.shiftLeft_eq]
  have hb : (wireReadRegister w INA219_REG_BUSVOLTAGE >>> 3) * 4 ≤ 32767 := by
    rw [Nat.shiftRight_eq_div_pow]
    omega
  simp only [getBusVoltage_raw, getBusVoltage_V]
  rw [hsh]
  exact ⟨rfl, int16wrap_natCast hb⟩

/-- Claim C4: for every 16-bit raw shunt-voltage register value `v`
(interpreted unsigned), `getShuntVoltage_mV` returns 0 when `650 ≤ v` and the
signed 16-bit reinterpretation of `v` when `v < 650`. -/
theorem shuntVoltage_mV_clamp (w : WireState) (v : Nat)
    (hv : wireReadRegister w INA219_REG_SHUNTVOLTAGE = v) :
    (650 ≤ v → getShuntVoltage_mV w = 0) ∧
    (v < 650 → getShuntVoltage_mV w = int16wrap v) := by
  simp only [getShuntVoltage_mV]
  rw [hv]
  constructor
  · intro h
    rw [if_pos h]
    decide
  · intro h
    rw [if_neg (by omega)]

/-- Claim C4 witness: raw value 650 (bytes 0x02, 0x8A) is clamped to 0. -/
theorem shuntVoltage_mV_clamp_at_650 :
    getShuntVoltage_mV (mockWire INA219_REG_SHUNTVOLTAGE 0x02 0x8A) = 0 :=
  (shuntVoltage_mV_clamp (mockWire INA219_REG_SHUNTVOLTAGE 0x02 0x8A) 650
    (by decide)).1 (by norm_num)

/-- Claim C10: for every 16-bit raw shunt-voltage register value,
`getShuntVoltage_mV` returns a value in [0, 649]; in particular every raw
value with the sign bit set (at least 0x8000) yields 0. -/
theorem shuntVoltage_mV_range (w : WireState) :
    (0 ≤ getShuntVoltage_mV w ∧ getShuntVoltage_mV w ≤ 649) ∧
    (32768 ≤ wireReadRegister w INA219_REG_SHUNTVOLTAGE →
      getShuntVoltage_mV w = 0) := by
  simp only [getShuntVoltage_mV]
  by_cases h : 650 ≤ wireReadRegister w INA219_REG_SHUNTVOLTAGE
  · rw [if_pos h]
    exact ⟨by decide, fun _ => by decide⟩
  · rw [if_neg h]
    push_neg at h
    have hw := int16wrap_natCast
      (v := wireReadRegister w INA219_REG_SHUNTVOLTAGE) (by omega)
    rw [hw]
    exact ⟨⟨by omega, by omega⟩, fun hc => absurd hc (by omega)⟩

/-- Claim C10 witness: the raw value 0x8000 (a negative shunt reading) is
clamped to 0. -/
theorem shuntVoltage_mV_range_at_0x8000 :
    getShuntVoltage_mV (mockWire INA219_REG_SHUNTVOLTAGE 0x80 0x00) = 0 :=
  (shuntVoltage_mV_range (mockWire INA219_REG_SHUNTVOLTAGE 0x80 0x00)).2
    (by decide)

/-- Claim C6: writing a 16-bit value with `wireWriteRegister` and reading the
same register back with `wireReadRegister` returns the identical value: the
write emits the most significant byte first and the read reassembles
`(first << 8) + second`, so the byte orders agree. -/
theorem wire_write_read_roundtrip (w : WireState) (addr reg value : Nat)
    (hv : value < 65536) :
    wireReadRegister (wireWriteRegister w addr reg value) reg = value := by
  have h255 : (0xFF : Nat) = 2 ^ 8 - 1 := rfl
  simp only [wireReadRegister, wireWriteRegister, if_pos, h255,
    Nat.and_pow_two_sub_one_eq_mod, Nat.shiftRight_eq_div_pow, Nat.shiftLeft_eq]
  omega

/-- Claim C6 witness: 0x1234 round-trips through register 5 at address
0x40. -/
theorem wire_write_read_roundtrip_0x1234 :
    0x1234 < 65536 ∧
    wireReadRegister (wireWriteRegister initialWire 0x40 0x05 0x1234) 0x05 =
      0x1234 :=
  ⟨by norm_num, wire_write_read_roundtrip initialWire 0x40 0x05 0x1234 (by norm_num)⟩

/-- Claim C7: immediately after construction both divisor fields are the
uncalibrated sentinel 0, and the sentinel state ends exactly at a
preset-application step: every preset installs nonzero divisors. -/
theorem divisors_zero_after_construction (addr : Nat) :
    ((mkINA219 addr).ina219_currentDivider_mA = 0 ∧
     (mkINA219 addr).ina219_powerDivider_mW = 0) ∧
    (∀ (dev : INA219) (w : WireState),
      (ina219SetCalibration_32V_2A dev w).1.ina219_currentDivider_mA ≠ 0 ∧
      (ina219SetCalibration_32V_2A dev w).1.ina219_powerDivider_mW ≠ 0 ∧
      (ina219SetCalibration_32V_1A dev w).1.ina219_currentDivider_mA ≠ 0 ∧
      (ina219SetCalibration_32V_1A dev w).1.ina219_powerDivider_mW ≠ 0 ∧
      (ina219SetCalibration_16V_400mA dev w).1.ina219_currentDivider_mA ≠ 0 ∧
      (ina219SetCalibration_16V_400mA dev w).1.ina219_powerDivider_mW ≠ 0) := by
  refine ⟨⟨rfl, rfl⟩, fun dev w => ?_⟩
  refine ⟨?_, ?_, ?_, ?_, ?_, ?_⟩ <;>
    simp [ina219SetCalibration_32V_2A, ina219SetCalibration_32V_1A,
      ina219SetCalibration_16V_400mA]

/-- Claim C1: each calibration preset appends to the bus trace exactly the
documented calibration-register write (0x1000, 0x2800, 8192 respectively)
followed by the documented bitwise-OR'd configuration-register write, and
sets (currentDivisor, powerDivisor) to (10, 2), (25, 1), (20, 1)
respectively. -/
theorem calibration_presets_documented (dev : INA219) (w : WireState) :
    ((ina219SetCalibration_32V_2A dev w).1.ina219_currentDivider_mA = 10 ∧
     (ina219SetCalibration_32V_2A dev w).1.ina219_powerDivider_mW = 2 ∧
     writtenValues (ina219SetCalibration_32V_2A dev w).2 =
       writtenValues w ++
         [(dev.ina219_i2caddr, INA219_REG_CALIBRATION, 0x1000),
          (dev.ina219_i2caddr, INA219_REG_CONFIG,
            INA219_CONFIG_BVOLTAGERANGE_32V ||| INA219_CONFIG_GAIN_8_320MV |||
            INA219_CONFIG_BADCRES_12BIT ||| INA219_CONFIG_SADCRES_12BIT_1S_532US |||
            INA219_CONFIG_MODE_SANDBVOLT_CONTINUOUS)]) ∧
    ((ina219SetCalibration_32V_1A dev w).1.ina219_currentDivider_mA = 25 ∧
     (ina219SetCalibration_32V_1A dev w).1.ina219_powerDivider_mW = 1 ∧
     writtenValues (ina219SetCalibration_32V_1A dev w).2 =
       writtenValues w ++
         [(dev.ina219_i2caddr, INA219_REG_CALIBRATION, 0x2800),
          (dev.ina219_i2caddr, INA219_REG_CONFIG,
            INA219_CONFIG_BVOLTAGERANGE_32V ||| INA219_CONFIG_GAIN_8_320MV |||
            INA219_CONFIG_BADCRES_12BIT ||| INA219_CONFIG_SADCRES_12BIT_1S_532US |||
            INA219_CONFIG_MODE_SANDBVOLT_CONTINUOUS)]) ∧
    ((ina219SetCalibration_16V_400mA dev w).1.ina219_currentDivider_mA = 20 ∧
     (ina219SetCalibration_16V_400mA dev w).1.ina219_powerDivider_mW = 1 ∧
     writtenValues (ina219SetCalibration_16V_400mA dev w).2 =
       writtenValues w ++
         [(dev.ina219_i2caddr, INA219_REG_CALIBRATION, 8192),
          (dev.ina219_i2caddr, INA219_REG_CONFIG,
            INA219_CONFIG_BVOLTAGERANGE_16V ||| INA219_CONFIG_GAIN_1_40MV |||
            INA219_CONFIG_BADCRES_12BIT ||| INA219_CONFIG_SADCRES_12BIT_1S_532US |||
            INA219_CONFIG_MODE_SANDBVOLT_CONTINUOUS)]) := by
  refine ⟨⟨rfl, rfl, ?_⟩, ⟨rfl, rfl, ?_⟩, rfl, rfl, ?_⟩ <;>
    simp [writtenValues, ina219SetCalibration_32V_2A, ina219SetCalibration_32V_1A,
      ina219SetCalibration_16V_400mA, wireWriteRegister] <;> decide

/-- Claim C8: `begin` enables the bus and applies the 32V/2A preset: the
divisors become 10 and 2 and the calibration write of 0x1000 followed by the
32V/2A configuration write are issued. -/
theorem begin_enables_and_calibrates (dev : INA219) (w : WireState) :
    (begin dev w).2.enabled = true ∧
    (begin dev w).1.ina219_currentDivider_mA = 10 ∧
    (begin dev w).1.ina219_powerDivider_mW = 2 ∧
    writtenValues (begin dev w).2 =
      writtenValues w ++
        [(dev.ina219_i2caddr, INA219_REG_CALIBRATION, 0x1000),
         (dev.ina219_i2caddr, INA219_REG_CONFIG,
           INA219_CONFIG_BVOLTAGERANGE_32V ||| INA219_CONFIG_GAIN_8_320MV |||
           INA219_CONFIG_BADCRES_12BIT ||| INA219_CONFIG_SADCRES_12BIT_1S_532US |||
           INA219_CONFIG_MODE_SANDBVOLT_CONTINUOUS)] := by
  refine ⟨rfl, rfl, rfl, ?_⟩
  simp [begin, writtenValues, ina219SetCalibration_32V_2A, wireWriteRegister]
  decide

lemma div_bound_rat {v : Int} {d : Nat} (h1 : -32768 ≤ v) (h2 : v ≤ 32767)
    (hd : 10 ≤ d) :
    -(3277 : ℚ) ≤ (v : ℚ) / (d : ℚ) ∧ (v : ℚ) / (d : ℚ) ≤ 3277 := by
  have hdq : (10 : ℚ) ≤ (d : ℚ) := by exact_mod_cast hd
  have hd0 : (0 : ℚ) < (d : ℚ) := by linarith
  have hv1 : (-32768 : ℚ) ≤ (v : ℚ) := by exact_mod_cast h1
  have hv2 : (v : ℚ) ≤ 32767 := by exact_mod_cast h2
  have hmul : (3277 : ℚ) * 10 ≤ 3277 * (d : ℚ) :=
    mul_le_mul_of_nonneg_left hdq (by norm_num)
  constructor
  · rw [le_div_iff₀ hd0]
    nlinarith
  · rw [div_le_iff₀ hd0]
    nlinarith

/-- Driver obtained by applying the 32V/2A preset to a freshly constructed
instance at address 0x40 (currentDivisor 10). -/
def dev2A : INA219 :=
  (ina219SetCalibration_32V_2A (mkINA219 0x40) initialWire).1

/-- Driver obtained by applying the 16V/400mA preset to a freshly constructed
instance at address 0x41 (currentDivisor 20). -/
def dev400 : INA219 :=
  (ina219SetCalibration_16V_400mA (mkINA219 0x41) initialWire).1

/-- Claim C5: for every raw current register value and applied divisor
`d ∈ {10, 25}`, `getCurrent_mA` returns `v / d + 0.5` truncated toward zero,
where `v` is the signed reinterpretation of the raw bits; in particular raw
bits 100 with `d = 10` yield 10 and raw bits of signed −100 with `d = 10`
yield −9 (the asymmetric rounding of the source). -/
theorem current_mA_rounding :
    (∀ (w : WireState) (dev : INA219) (d : Nat),
      dev.ina219_currentDivider_mA = d → d = 10 ∨ d = 25 →
      getCurrent_mA dev w =
        some (ratTrunc
          ((int16wrap (wireReadRegister w INA219_REG_CURRENT) : ℚ) / (d : ℚ) +
            1/2))) ∧
    getCurrent_mA dev2A (mockWire INA219_REG_CURRENT 0x00 0x64) = some 10 ∧
    getCurrent_mA dev2A (mockWire INA219_REG_CURRENT 0xFF 0x9C) = some (-9) := by
  refine ⟨?_, ?_, ?_⟩
  · intro w dev d hdev hd
    have hd10 : 10 ≤ d := by rcases hd with h | h <;> omega
    have hd0 : d ≠ 0 := by omega
    have hb := int16wrap_bounds ((wireReadRegister w INA219_REG_CURRENT : Nat) : Int)
    have hdiv := div_bound_rat hb.1 hb.2 hd10
    have hq1 : -(((3278 : Int)) : ℚ) ≤
        (int16wrap (wireReadRegister w INA219_REG_CURRENT) : ℚ) / (d : ℚ) + 1/2 := by
      push_cast
      linarith [hdiv.1]
    have hq2 : (int16wrap (wireReadRegister w INA219_REG_CURRENT) : ℚ) / (d : ℚ) + 1/2 ≤
        (((3278 : Int)) : ℚ) := by
      push_cast
      linarith [hdiv.2]
    have hrt := ratTrunc_bounds hq1 hq2
    simp only [getCurrent_mA, hdev, if_neg hd0]
    rw [int16wrap_eq_self (by omega) (by omega)]
  · simp [getCurrent_mA, dev2A, ina219SetCalibration_32V_2A, mkINA219, mockWire,
      wireReadRegister, wireWriteRegister, int16wrap, ratTrunc]
    norm_num [Int.ceil_neg, Rat.floor_def]
  · simp [getCurrent_mA, dev2A, ina219SetCalibration_32V_2A, mkINA219, mockWire,
      wireReadRegister, wireWriteRegister, int16wrap, ratTrunc]
    norm_num [Int.ceil_neg, Rat.floor_def]

/-- Claim C5 witness: with the 32V/2A driver (divisor 10) and raw current
bits 100, the theorem instantiates to the claimed truncation formula. -/
theorem current_mA_rounding_witness :
    dev2A.ina219_currentDivider_mA = 10 ∧
    getCurrent_mA dev2A (mockWire INA219_REG_CURRENT 0x00 0x64) =
      some (ratTrunc
        ((int16wrap (wireReadRegister (mockWire INA219_REG_CURRENT 0x00 0x64)
            INA219_REG_CURRENT) : ℚ) / (10 : ℚ) + 1/2)) :=
  ⟨rfl, current_mA_rounding.1 (mockWire INA219_REG_CURRENT 0x00 0x64) dev2A 10
    rfl (Or.inl rfl)⟩

/-- Claim C9: once a calibration preset has been applied the current divisor
is 10, 25 or 20, all nonzero, so the divide-by-zero branch of the embedded
guarded division in `getCurrent_mA` is unreachable; with the uncalibrated
divisor 0 the division is a precondition violation (`none`). -/
theorem current_divisor_guard :
    (∀ (dev : INA219) (w : WireState),
      dev.ina219_currentDivider_mA = 10 ∨ dev.ina219_currentDivider_mA = 25 ∨
        dev.ina219_currentDivider_mA = 20 →
      getCurrent_mA dev w ≠ none) ∧
    (∀ (dev : INA219) (w : WireState),
      dev.ina219_currentDivider_mA = 0 → getCurrent_mA dev w = none) ∧
    (∀ (dev : INA219) (w : WireState),
      (ina219SetCalibration_32V_2A dev w).1.ina219_currentDivider_mA = 10 ∧
      (ina219SetCalibration_32V_1A dev w).1.ina219_currentDivider_mA = 25 ∧
      (ina219SetCalibration_16V_400mA dev w).1.ina219_currentDivider_mA = 20) := by
  refine ⟨?_, ?_, fun dev w => ⟨rfl, rfl, rfl⟩⟩
  · intro dev w hd
    have h0 : dev.ina219_currentDivider_mA ≠ 0 := by rcases hd with h | h | h <;> omega
    simp only [getCurrent_mA, if_neg h0]
    exact Option.some_ne_none _
  · intro dev w h0
    simp only [getCurrent_mA, if_pos h0]

/-- Claim C9 witness: the 16V/400mA-calibrated driver (divisor 20) never hits
the divide-by-zero branch. -/
theorem current_divisor_guard_witness :
    getCurrent_mA dev400 initialWire ≠ none :=
  current_divisor_guard.1 dev400 initialWire (Or.inr (Or.inr rfl))
